import Mathlib

/-!
Shallow embedding of the experiment-sequence engine of
`cannex/core/experiment_sequence.py` (classes `ExperimentTask`,
`ExperimentSequence`, `SequenceExecutor`, `SequenceManager`).

Modelling conventions:
* Python dynamic values that flow through task parameters and results are
  embedded as `PyVal` (ints, strings, booleans, None).  Floating point
  values are outside the embedding; no claim involves them.
* Python dicts are association lists with first-match lookup and
  update-in-place-or-append semantics (`updateAssoc`).
* Instrument objects are external collaborators; an `Instrument` is its
  identity (`uid`, modelling Python object identity) plus its displayed
  `instrument_data` name.  The mutable `parameters` attribute of each
  instrument object lives in a uid-keyed store inside the executor state,
  and `run_function` is an oracle supplied to the executor.
* `QDateTime` values are embedded at second granularity as seconds since
  an epoch; `addDays d` is `+ 86400 * d`.  Qt's `Qt.ISODate`
  string round trip is an external library facility and lossless at this
  granularity, so serialization stores the value itself.
* `time.sleep` only suspends the executor thread and is a no-op here;
  the cooperative `paused` flag is never set by any modelled scenario, so
  the pause-poll loop is elided.
-/

/-- Embedded Python value (int, str, bool, None). -/
inductive PyVal where
  | int (n : Int)
  | str (s : String)
  | bool (b : Bool)
  | noneV
deriving DecidableEq, Repr

/-- Python truthiness for the embedded values. -/
def PyVal.isTruthy : PyVal → Bool
  | .int n => n != 0
  | .str s => s != ""
  | .bool b => b
  | .noneV => false

/-- Python `str()` of an embedded value, as used in f-strings. -/
def PyVal.pyStr : PyVal → String
  | .int n => toString n
  | .str s => s
  | .bool b => if b then "True" else "False"
  | .noneV => "None"

/-- Python `str.strip()`: drop leading and trailing whitespace.  Written
over the character list so that it is kernel-computable. -/
def pyStrip (s : String) : String :=
  String.mk (((s.data.dropWhile Char.isWhitespace).reverse.dropWhile
    Char.isWhitespace).reverse)

/-- Left-to-right non-overlapping split on the two-character separator
`==`, as Python `condition.split("==")` scans; the accumulator holds the
current piece reversed. -/
def splitEqEq : List Char → List Char → List (List Char)
  | [], acc => [acc.reverse]
  | [c], acc => [(c :: acc).reverse]
  | a :: b :: rest, acc =>
      if a = '=' ∧ b = '=' then acc.reverse :: splitEqEq rest []
      else splitEqEq (b :: rest) (a :: acc)

/-- Python `s.split("==")`. -/
def pySplitEqEq (s : String) : List String :=
  (splitEqEq s.data []).map (fun cs => String.mk cs)

/-- Python `int(string)`: strip whitespace, optional sign, decimal
digits.  Written over the character list so that it is
kernel-computable. -/
def parseIntPy (s : String) : Option Int :=
  let t := ((s.data.dropWhile Char.isWhitespace).reverse.dropWhile
    Char.isWhitespace).reverse
  let core := match t with
    | c :: rest => if c = '-' ∨ c = '+' then rest else t
    | [] => t
  if core ≠ [] ∧ core.all Char.isDigit then
    let mag : Int := Int.ofNat (core.foldl (fun acc c => acc * 10 + (c.toNat - 48)) 0)
    some (match t with
      | c :: _ => if c = '-' then -mag else mag
      | [] => mag)
  else
    none

/-- Python `int(value)`; raises (is `Except.error`) on `None` and on
non-numeric strings, as `int(...)` does. -/
def PyVal.toIntPy : PyVal → Except String Int
  | .int n => .ok n
  | .bool b => .ok (if b then 1 else 0)
  | .str s =>
      match parseIntPy s with
      | some n => .ok n
      | none => .error ("invalid literal for int with base 10: " ++ s)
  | .noneV => .error ("int argument must be a string or a number, not NoneType")

/-- Python `==` between the embedded values (booleans compare as ints, as
in Python where `bool` is a subclass of `int`; values of unrelated types
compare unequal). -/
def pyEq : PyVal → PyVal → Bool
  | .int m, .int n => m == n
  | .int m, .bool b => m == (if b then 1 else 0)
  | .bool b, .int n => (if b then (1 : Int) else 0) == n
  | .bool a, .bool b => a == b
  | .str a, .str b => a == b
  | .noneV, .noneV => true
  | _, _ => false

/-- Python dict, embedded as an association list. -/
abbrev Params := List (String × PyVal)

/-- Dict lookup (`d.get(k)` without default): first matching key. -/
def pget (m : Params) (k : String) : Option PyVal :=
  match m with
  | [] => none
  | (k1, v) :: rest => if k1 == k then some v else pget rest k

/-- Dict lookup with default (`d.get(k, dflt)`). -/
def pgetD (m : Params) (k : String) (dflt : PyVal) : PyVal :=
  (pget m k).getD dflt

/-- Dict store `d[k] = v`: update the existing key in place, else append. -/
def updateAssoc {α β : Type} [BEq α] (m : List (α × β)) (k : α) (v : β) :
    List (α × β) :=
  match m with
  | [] => [(k, v)]
  | (k1, v1) :: rest =>
      if k1 == k then (k, v) :: rest else (k1, v1) :: updateAssoc rest k v

/-- Lookup in a uid-keyed association list. -/
def lookupAssoc {α β : Type} [BEq α] (m : List (α × β)) (k : α) : Option β :=
  match m with
  | [] => none
  | (k1, v) :: rest => if k1 == k then some v else lookupAssoc rest k

/-- External instrument object: `uid` models Python object identity,
`name` is `instrument_data` paired with the `name` key. -/
structure Instrument where
  uid : Nat
  name : String
deriving DecidableEq, Repr

/-- One task of a sequence (`ExperimentTask.__init__`).  `repeatCount`
embeds the source field named `repeat` (a Lean keyword). -/
structure ExperimentTask where
  name : String
  task_type : String
  target : Option Instrument
  function : Option String
  parameters : Params
  delay : Int
  repeatCount : Int
  condition : Option String
  result : Option PyVal
  status : String
deriving DecidableEq, Repr

/-- Seconds since an epoch, embedding `QDateTime` at second granularity. -/
abbrev QDT := Nat

/-- The serialized record of one task (`ExperimentTask.to_dict`). -/
structure TaskRecord where
  name : String
  task_type : String
  target : Option String
  function : Option String
  parameters : Params
  delay : Int
  repeatCount : Int
  condition : Option String
deriving DecidableEq, Repr

/-- `ExperimentTask.to_dict`: the target is stored by instrument name. -/
def ExperimentTask.to_dict (t : ExperimentTask) : TaskRecord :=
  { name := t.name
    task_type := t.task_type
    target := t.target.map Instrument.name
    function := t.function
    parameters := t.parameters
    delay := t.delay
    repeatCount := t.repeatCount
    condition := t.condition }

/-- `ExperimentTask.from_dict`: resolve the stored target name against the
supplied instrument list.  The source guards with `if data.get("target"):`,
a truthiness test, so an empty-string stored name is treated as absent. -/
def ExperimentTask.from_dict (d : TaskRecord) (instruments : List Instrument) :
    ExperimentTask :=
  let target :=
    match d.target with
    | some tn =>
        if tn == "" then none
        else instruments.find? (fun i => i.name == tn)
    | none => none
  { name := d.name
    task_type := d.task_type
    target := target
    function := d.function
    parameters := d.parameters
    delay := d.delay
    repeatCount := d.repeatCount
    condition := d.condition
    result := none
    status := "pending" }

/-- A sequence (`ExperimentSequence.__init__`).  `recurrence_type` embeds
the dynamically attached attribute of the same name: `none` means the
attribute is absent (`hasattr` is false). -/
structure ExperimentSequence where
  name : String
  tasks : List ExperimentTask
  scheduled_time : Option QDT
  current_task : Nat
  status : String
  loop_stack : List (Nat × Int × Int)
  results : List (String × PyVal)
  recurrence_type : Option String
deriving DecidableEq, Repr

/-- `ExperimentSequence.add_task`. -/
def ExperimentSequence.add_task (s : ExperimentSequence)
    (t : ExperimentTask) : ExperimentSequence :=
  { s with tasks := s.tasks ++ [t] }

/-- `ExperimentSequence.remove_task`: bounds-checked `tasks.pop(index)`. -/
def ExperimentSequence.remove_task (s : ExperimentSequence) (index : Int) :
    ExperimentSequence :=
  if 0 ≤ index ∧ index < (s.tasks.length : Int) then
    { s with tasks := s.tasks.eraseIdx index.toNat }
  else s

/-- Simultaneous swap of the entries at two indices, as done by the
Python tuple assignment in `move_task_up` and `move_task_down`. -/
def swapIdx (l : List ExperimentTask) (i j : Nat) : List ExperimentTask :=
  match l[i]?, l[j]? with
  | some a, some b => (l.set i b).set j a
  | _, _ => l

/-- `ExperimentSequence.move_task_up`. -/
def ExperimentSequence.move_task_up (s : ExperimentSequence) (index : Int) :
    ExperimentSequence :=
  if 0 < index ∧ index < (s.tasks.length : Int) then
    { s with tasks := swapIdx s.tasks index.toNat (index.toNat - 1) }
  else s

/-- `ExperimentSequence.move_task_down`. -/
def ExperimentSequence.move_task_down (s : ExperimentSequence) (index : Int) :
    ExperimentSequence :=
  if 0 ≤ index ∧ index < (s.tasks.length : Int) - 1 then
    { s with tasks := swapIdx s.tasks index.toNat (index.toNat + 1) }
  else s

/-- The serialized record of one sequence file.  `ExperimentSequence.to_dict`
fills `name`, `tasks` and `scheduled_time`; `recurrence_type` is attached
by `SequenceManager.save_sequences` when the attribute exists.  The
`metadata` block written on save carries only timestamps and is not read
back, so it is elided. -/
structure SequenceRecord where
  name : String
  tasks : List TaskRecord
  scheduled_time : Option QDT
  recurrence_type : Option String
deriving DecidableEq, Repr

/-- `ExperimentSequence.to_dict` (does not include recurrence). -/
def ExperimentSequence.to_dict (s : ExperimentSequence) : SequenceRecord :=
  { name := s.name
    tasks := s.tasks.map ExperimentTask.to_dict
    scheduled_time := s.scheduled_time
    recurrence_type := none }

/-- `ExperimentSequence.from_dict` (ignores any recurrence field). -/
def ExperimentSequence.from_dict (d : SequenceRecord)
    (instruments : List Instrument) : ExperimentSequence :=
  { name := d.name
    tasks := d.tasks.map (fun td => ExperimentTask.from_dict td instruments)
    scheduled_time := d.scheduled_time
    current_task := 0
    status := "stopped"
    loop_stack := []
    results := []
    recurrence_type := none }

/-- The per-sequence data written by `SequenceManager.save_sequences`:
`to_dict` plus the `recurrence_type` key when the attribute exists. -/
def saveSequenceData (s : ExperimentSequence) : SequenceRecord :=
  { s.to_dict with recurrence_type := s.recurrence_type }

/-- The per-file reconstruction done by `SequenceManager.load_sequences`:
`from_dict` followed by restoring `recurrence_type` when present. -/
def loadSequenceData (d : SequenceRecord) (instruments : List Instrument) :
    ExperimentSequence :=
  match d.recurrence_type with
  | some r => { ExperimentSequence.from_dict d instruments with recurrence_type := some r }
  | none => ExperimentSequence.from_dict d instruments

/-- `ExperimentSequence.reset`. -/
def ExperimentSequence.reset (s : ExperimentSequence) : ExperimentSequence :=
  { s with
    current_task := 0
    status := "stopped"
    loop_stack := []
    results := []
    tasks := s.tasks.map (fun t => { t with status := "pending", result := none }) }

/-- Lifecycle events emitted by the executor (the pyqtSignal payloads). -/
inductive Event where
  | taskStarted (i : Nat)
  | taskCompleted (i : Nat) (r : PyVal)
  | taskError (i : Nat) (msg : String)
  | seqCompleted
  | seqPaused
  | seqStopped
deriving DecidableEq, Repr

/-- Behavior of `target.run_function()`: given the instrument identity and
its currently installed `parameters`, return a result or raise. -/
def Oracle := Nat → Params → Except String PyVal

/-- State owned by one `SequenceExecutor` run: the sequence, the `stopped`
flag, the uid-keyed `parameters` store of all instrument objects, and the
trace of emitted events. -/
structure ExecState where
  seq : ExperimentSequence
  stopped : Bool
  instrParams : List (Nat × Params)
  events : List Event
deriving DecidableEq, Repr

/-- Read `instrument.parameters` (instrument objects always carry the
attribute; an unknown uid reads as the empty dict). -/
def getIP (st : ExecState) (uid : Nat) : Params :=
  (lookupAssoc st.instrParams uid).getD []

/-- Write `instrument.parameters`. -/
def setIP (st : ExecState) (uid : Nat) (p : Params) : ExecState :=
  { st with instrParams := updateAssoc st.instrParams uid p }

/-- Mutate the task object stored at an index of the sequence. -/
def modifyTask (st : ExecState) (idx : Nat)
    (f : ExperimentTask → ExperimentTask) : ExecState :=
  match st.seq.tasks[idx]? with
  | some t => { st with seq := { st.seq with tasks := st.seq.tasks.set idx (f t) } }
  | none => st

/-- Emit one lifecycle event. -/
def emit (st : ExecState) (e : Event) : ExecState :=
  { st with events := st.events ++ [e] }

/-- Truthiness of an optional string attribute (`task.function`). -/
def strOptTruthy : Option String → Bool
  | none => false
  | some s => s != ""

/-- The condition evaluation of the `condition` dispatch arm
(`experiment_sequence.py` lines 225-251): only `left == right` where
`left` must be a key of `sequence.results`; the right-hand side is
coerced to the type of the looked-up value; every failure gives `false`.
The `isinstance(left_value, int)` test is also true of Python booleans.
The `isinstance(left_value, float)` arm has no counterpart because the
embedding carries no floats. -/
def evalCondition (condition : Option String) (results : List (String × PyVal)) : Bool :=
  match condition with
  | none => false
  | some c =>
      match pySplitEqEq c with
      | [l, r] =>
          let left := pyStrip l
          let right := pyStrip r
          match pget results left with
          | some lv =>
              match lv with
              | .int _ =>
                  match parseIntPy right with
                  | some rv => pyEq lv (.int rv)
                  | none => false
              | .bool _ =>
                  match parseIntPy right with
                  | some rv => pyEq lv (.int rv)
                  | none => false
              | _ => pyEq lv (.str right)
          | none => false
      | _ => false

/-- Result of the dispatch (the `try` body, lines 174-263): normal fall
through with a result, a cursor jump that already emitted task-completed
and skips the normal completion path (`continue`), or a raised
exception. -/
inductive StepOutcome where
  | done (st : ExecState) (res : PyVal)
  | jumped (st : ExecState)
  | raised (st : ExecState) (msg : String)
deriving DecidableEq, Repr

/-- Dispatch by task type (the `try` body of `SequenceExecutor.run`). -/
def dispatch (o : Oracle) (st : ExecState) (idx : Nat)
    (task : ExperimentTask) : StepOutcome :=
  if task.task_type == "instrument" then
    match task.target with
    | some inst =>
        if strOptTruthy task.function then
          let original := getIP st inst.uid
          let st1 := setIP st inst.uid task.parameters
          match o inst.uid task.parameters with
          | .ok result =>
              let st2 := setIP st1 inst.uid original
              let st3 := modifyTask st2 idx (fun t => { t with result := some result })
              let st4 := { st3 with seq := { st3.seq with
                             results := updateAssoc st3.seq.results task.name result } }
              .done st4 result
          | .error msg => .raised st1 msg
        else .raised st ("Invalid instrument or function")
    | none => .raised st ("Invalid instrument or function")
  else if task.task_type == "delay" then
    let v := pgetD task.parameters ("seconds") (.int 1)
    match v with
    | .str _ => .raised st ("an integer is required")
    | .noneV => .raised st ("an integer is required")
    | _ =>
        let msg := "Delayed " ++ v.pyStr ++ " seconds"
        .done (modifyTask st idx (fun t => { t with result := some (.str msg) })) (.str msg)
  else if task.task_type == "loop_start" then
    let st1 := { st with seq := { st.seq with
                   loop_stack := (idx, 0, task.repeatCount) :: st.seq.loop_stack } }
    let msg := "Loop started (" ++ toString task.repeatCount ++ " iterations)"
    .done (modifyTask st1 idx (fun t => { t with result := some (.str msg) })) (.str msg)
  else if task.task_type == "loop_end" then
    match st.seq.loop_stack with
    | (si, ci, mi) :: rest =>
        let ci2 := ci + 1
        if ci2 < mi then
          let msg := "Loop iteration " ++ toString (ci2 + 1) ++ "/" ++ toString mi
          let st1 := { st with seq := { st.seq with
                         loop_stack := (si, ci2, mi) :: rest, current_task := si } }
          let st2 := modifyTask st1 idx (fun t => { t with result := some (.str msg) })
          .jumped (emit st2 (.taskCompleted idx (.str msg)))
        else
          let st1 := { st with seq := { st.seq with loop_stack := rest } }
          .done (modifyTask st1 idx (fun t => { t with result := some (.str ("Loop complete")) }))
            (.str ("Loop complete"))
    | [] =>
        let msg := "Warning: Loop end without matching start"
        .done (modifyTask st idx (fun t => { t with result := some (.str msg) })) (.str msg)
  else if task.task_type == "condition" then
    let cres := evalCondition task.condition st.seq.results
    let msg := "Condition evaluated to " ++ (if cres then "True" else "False")
    let st1 := modifyTask st idx (fun t => { t with result := some (.str msg) })
    if !cres && decide (idx + 1 < st1.seq.tasks.length)
        && (pgetD task.parameters ("else_index") .noneV).isTruthy then
      match (pgetD task.parameters ("else_index") .noneV).toIntPy with
      | .ok j =>
          if 0 ≤ j ∧ j < (st1.seq.tasks.length : Int) then
            let st2 := { st1 with seq := { st1.seq with current_task := j.toNat } }
            .jumped (emit st2 (.taskCompleted idx (.str msg)))
          else .done st1 (.str msg)
      | .error emsg => .raised st1 emsg
    else .done st1 (.str msg)
  else
    let msg := "Unknown task type: " ++ task.task_type
    .done (modifyTask st idx (fun t => { t with result := some (.str msg) })) (.str msg)

/-- Lines 160-172: set the sequence running, mark the current task
running and emit task-started. -/
def started (st : ExecState) (idx : Nat) : ExecState :=
  emit (modifyTask { st with seq := { st.seq with status := "running" } } idx
    (fun t => { t with status := "running" })) (.taskStarted idx)

/-- Lines 265-266 and 281: mark complete, emit task-completed, advance. -/
def completePath (st : ExecState) (idx : Nat) (res : PyVal) : ExecState :=
  let st1 := modifyTask st idx (fun t => { t with status := "complete" })
  let st2 := emit st1 (.taskCompleted idx res)
  { st2 with seq := { st2.seq with current_task := st2.seq.current_task + 1 } }

/-- The `except` clause (lines 268-278) followed, when the task opts in to
`continue_on_error`, by the normal advance (line 281). -/
def errorPath (st : ExecState) (idx : Nat) (task : ExperimentTask)
    (msg : String) : ExecState :=
  let st1 := modifyTask st idx
    (fun t => { t with status := "error", result := some (.str ("Error: " ++ msg)) })
  let st2 := emit st1 (.taskError idx msg)
  if (pgetD task.parameters ("continue_on_error") (.bool false)).isTruthy then
    { st2 with seq := { st2.seq with current_task := st2.seq.current_task + 1 } }
  else
    { st2 with stopped := true, seq := { st2.seq with status := "stopped" } }

/-- One full iteration of the main `while` loop for the task found at the
cursor. -/
def stepWithTask (o : Oracle) (st : ExecState) (idx : Nat)
    (task : ExperimentTask) : ExecState :=
  match dispatch o (started st idx) idx task with
  | .done st2 res => completePath st2 idx res
  | .jumped st2 => st2
  | .raised st2 msg => errorPath st2 idx task msg

/-- One iteration of the main loop (the guard is checked by `runLoop`). -/
def execStep (o : Oracle) (st : ExecState) : ExecState :=
  match st.seq.tasks[st.seq.current_task]? with
  | some task => stepWithTask o st st.seq.current_task task
  | none => st

/-- The `while` guard of line 150. -/
def loopGuard (st : ExecState) : Bool :=
  decide (st.seq.current_task < st.seq.tasks.length) && !st.stopped

/-- Lines 283-288: terminal status and final event after the loop. -/
def finishRun (st : ExecState) : ExecState :=
  if decide (st.seq.tasks.length ≤ st.seq.current_task) && !st.stopped then
    emit { st with seq := { st.seq with status := "complete" } } .seqCompleted
  else
    emit { st with seq := { st.seq with status := "stopped" } } .seqStopped

/-- Result of a fuelled run: either the loop exited as in the source, or
the fuel ran out with the loop still live. -/
inductive RunOutcome where
  | finished (st : ExecState)
  | outOfFuel (st : ExecState)
deriving DecidableEq, Repr

/-- Whether the fuelled run exited the main loop. -/
def RunOutcome.isFinished : RunOutcome → Bool
  | .finished _ => true
  | .outOfFuel _ => false

/-- The state carried by a run outcome. -/
def RunOutcome.state : RunOutcome → ExecState
  | .finished st => st
  | .outOfFuel st => st

/-- The main `while` loop of `SequenceExecutor.run`, fuelled. -/
def runLoop (o : Oracle) : Nat → ExecState → RunOutcome
  | 0, st => if loopGuard st then .outOfFuel st else .finished (finishRun st)
  | fuel + 1, st =>
      if loopGuard st then runLoop o fuel (execStep o st)
      else .finished (finishRun st)

/-- `SequenceExecutor.run`: reset the owned sequence, mark it running and
enter the main loop.  `instrParams0` is the initial `parameters` store of
the instrument objects. -/
def SequenceExecutor.run (o : Oracle) (fuel : Nat) (seq0 : ExperimentSequence)
    (instrParams0 : List (Nat × Params)) : RunOutcome :=
  runLoop o fuel
    { seq := { seq0.reset with status := "running" }
      stopped := false
      instrParams := instrParams0
      events := [] }

/-- `QDateTime.addMonths(1)`, abstracted as thirty days; exact calendar
arithmetic is Qt library behavior and no claim depends on it. -/
def qAddMonth (t : QDT) : QDT := t + 2592000

/-- The per-sequence body of `SequenceManager.check_scheduled_sequences`:
when the sequence is stopped with a due schedule, recompute the schedule
from the recurrence attribute and report that `run_sequence` was
invoked. -/
def checkOne (now : QDT) (s : ExperimentSequence) : ExperimentSequence × Bool :=
  if s.status == "stopped"
      && (match s.scheduled_time with
          | some t => decide (t ≤ now)
          | none => false) then
    match s.recurrence_type with
    | some r =>
        if r == "Daily" then
          ({ s with scheduled_time := s.scheduled_time.map (fun t => t + 86400) }, true)
        else if r == "Weekly" then
          ({ s with scheduled_time := s.scheduled_time.map (fun t => t + 604800) }, true)
        else if r == "Monthly" then
          ({ s with scheduled_time := s.scheduled_time.map qAddMonth }, true)
        else ({ s with scheduled_time := none }, true)
    | none => ({ s with scheduled_time := none }, true)
  else (s, false)

/-- The `for` loop of `check_scheduled_sequences`, threading the position
of each sequence; the second component lists the positions for which
`run_sequence` was invoked. -/
def checkFrom (now : QDT) : Nat → List ExperimentSequence →
    List ExperimentSequence × List Nat
  | _, [] => ([], [])
  | i, s :: rest =>
      let p := checkOne now s
      let q := checkFrom now (i + 1) rest
      (p.1 :: q.1, (if p.2 then [i] else []) ++ q.2)

/-- `SequenceManager.check_scheduled_sequences` over the managed list. -/
def check_scheduled_sequences (now : QDT) (seqs : List ExperimentSequence) :
    List ExperimentSequence × List Nat :=
  checkFrom now 0 seqs

/-- Number of task-started events for a given task index. -/
def countTaskStarted (i : Nat) (evs : List Event) : Nat :=
  evs.countP (fun e =>
    match e with
    | .taskStarted j => j == i
    | _ => false)

/-- The persistent (serialized) fields of a task, with the target kept as
the actual instrument reference: the portable content that serialization
is meant to preserve, excluding the per-run `status` and `result`. -/
structure TaskCore where
  name : String
  task_type : String
  target : Option Instrument
  function : Option String
  parameters : Params
  delay : Int
  repeatCount : Int
  condition : Option String
deriving DecidableEq, Repr

/-- Projection of a task onto its persistent fields. -/
def ExperimentTask.core (t : ExperimentTask) : TaskCore :=
  { name := t.name
    task_type := t.task_type
    target := t.target
    function := t.function
    parameters := t.parameters
    delay := t.delay
    repeatCount := t.repeatCount
    condition := t.condition }

/-- Oracle of an instrument call that always raises. -/
def oBoom : Oracle := fun _ _ => Except.error ("boom")

/-- Oracle of an instrument call that always succeeds with 42. -/
def oOk : Oracle := fun _ _ => Except.ok (PyVal.int 42)

/-- A loop-start task with three configured iterations. -/
def tLoopStart : ExperimentTask :=
  { name := "L", task_type := "loop_start", target := none, function := none,
    parameters := [], delay := 0, repeatCount := 3, condition := none,
    result := none, status := "pending" }

/-- A benign body task (an unrecognized type is non-fatal by design). -/
def tBody : ExperimentTask :=
  { name := "B", task_type := "noop", target := none, function := none,
    parameters := [], delay := 0, repeatCount := 1, condition := none,
    result := none, status := "pending" }

/-- The matching loop-end task. -/
def tLoopEnd : ExperimentTask :=
  { name := "E", task_type := "loop_end", target := none, function := none,
    parameters := [], delay := 0, repeatCount := 1, condition := none,
    result := none, status := "pending" }

/-- The three-task sequence LoopStart(repeat=3) / body / LoopEnd. -/
def seqLoop3 : ExperimentSequence :=
  { name := "S", tasks := [tLoopStart, tBody, tLoopEnd], scheduled_time := none,
    current_task := 0, status := "stopped", loop_stack := [], results := [],
    recurrence_type := none }

/-- An instrument object named PS. -/
def instPS : Instrument := { uid := 0, name := "PS" }

/-- An instrument task overriding the parameter `v` of `instPS`. -/
def tInstr : ExperimentTask :=
  { name := "T", task_type := "instrument", target := some instPS,
    function := some "setv", parameters := [("v", PyVal.int 9)], delay := 0,
    repeatCount := 1, condition := none, result := none, status := "pending" }

/-- Executor state about to dispatch `tInstr`, with the instrument holding
the pre-call parameters `v = 1`. -/
def stInstr : ExecState :=
  { seq := { name := "S", tasks := [tInstr], scheduled_time := none,
             current_task := 0, status := "running", loop_stack := [],
             results := [], recurrence_type := none },
    stopped := false, instrParams := [(0, [("v", PyVal.int 1)])], events := [] }

/-- A condition task comparing `x == 6` with an `else_index` of 0. -/
def tCondZero : ExperimentTask :=
  { name := "C", task_type := "condition", target := none, function := none,
    parameters := [("else_index", PyVal.int 0)], delay := 0, repeatCount := 1,
    condition := some ("x == 6"), result := none, status := "pending" }

/-- Executor state about to dispatch `tCondZero` with `results` holding
`x = 5`, so the condition evaluates to false. -/
def stCondZero : ExecState :=
  { seq := { name := "S", tasks := [tCondZero, tBody], scheduled_time := none,
             current_task := 0, status := "running", loop_stack := [],
             results := [("x", PyVal.int 5)], recurrence_type := none },
    stopped := false, instrParams := [], events := [] }

/-- The same condition task with a truthy in-range `else_index` of 2. -/
def tCondTwo : ExperimentTask :=
  { tCondZero with parameters := [("else_index", PyVal.int 2)] }

/-- Executor state about to dispatch `tCondTwo` among three tasks. -/
def stCondTwo : ExecState :=
  { stCondZero with
    seq := { stCondZero.seq with tasks := [tCondTwo, tBody, tBody] } }

/-- A condition task whose `else_index` is not integer-coercible. -/
def tCondBad : ExperimentTask :=
  { tCondZero with parameters := [("else_index", PyVal.str "foo")] }

/-- Executor state about to dispatch `tCondBad`; `x` is absent from
`results`, so evaluation degrades to false and the else branch is taken. -/
def stCondBad : ExecState :=
  { stCondZero with
    seq := { stCondZero.seq with tasks := [tCondBad, tBody], results := [] } }

/-- An instrument object whose displayed name is the empty string. -/
def instEmptyName : Instrument := { uid := 7, name := "" }

/-- A pristine sequence whose only task targets `instEmptyName`. -/
def seqEmptyTarget : ExperimentSequence :=
  { name := "R", tasks := [{ tInstr with target := some instEmptyName }],
    scheduled_time := none, current_task := 0, status := "stopped",
    loop_stack := [], results := [], recurrence_type := none }

/-- A sequence exercising the full save pipeline: an instrument task, a
condition task, a schedule and a Daily recurrence. -/
def seqRoundTrip : ExperimentSequence :=
  { name := "R2", tasks := [tInstr, tCondZero], scheduled_time := some 777,
    current_task := 0, status := "stopped", loop_stack := [], results := [],
    recurrence_type := some "Daily" }

/-- An instrument task with no target, raising an invalid-task error, and
opting in to `continue_on_error`. -/
def tBadResil : ExperimentTask :=
  { name := "X", task_type := "instrument", target := none,
    function := some "f", parameters := [("continue_on_error", PyVal.bool true)],
    delay := 0, repeatCount := 1, condition := none, result := none,
    status := "pending" }

/-- Executor state about to dispatch `tBadResil` followed by a body task. -/
def stBadResil : ExecState :=
  { seq := { name := "S", tasks := [tBadResil, tBody], scheduled_time := none,
             current_task := 0, status := "running", loop_stack := [],
             results := [], recurrence_type := none },
    stopped := false, instrParams := [], events := [] }

/-- A stopped sequence due at time 1000 with a Daily recurrence. -/
def seqDaily : ExperimentSequence :=
  { name := "D", tasks := [], scheduled_time := some 1000, current_task := 0,
    status := "stopped", loop_stack := [], results := [],
    recurrence_type := some "Daily" }

/-- An empty sequence left with stale run state from a previous run. -/
def seqStale : ExperimentSequence :=
  { name := "E", tasks := [], scheduled_time := none, current_task := 5,
    status := "paused", loop_stack := [(9, 9, 9)],
    results := [("z", PyVal.int 1)], recurrence_type := none }

/-- A two-task sequence carrying stale run state everywhere. -/
def seqStale2 : ExperimentSequence :=
  { name := "W", tasks := [{ tBody with status := "complete", result := some (PyVal.int 3) },
      { tLoopStart with status := "error" }],
    scheduled_time := none, current_task := 2, status := "complete",
    loop_stack := [(1, 2, 3)], results := [("B", PyVal.int 3)],
    recurrence_type := none }

/-- The same sequence in its pristine authored state. -/
def seqFresh2 : ExperimentSequence :=
  { name := "W", tasks := [tBody, tLoopStart], scheduled_time := none,
    current_task := 0, status := "stopped", loop_stack := [], results := [],
    recurrence_type := none }

/-- A task with its per-run status and result replaced. -/
def taskWith (t : ExperimentTask) (s : String) (r : Option PyVal) : ExperimentTask :=
  { t with status := s, result := r }

/-- The family of executor states the three-task loop sequence reaches:
cursor `c`, arbitrary per-task run state, loop stack and event trace. -/
def loopStC (c : Nat) (s0 s1 s2 : String) (r0 r1 r2 : Option PyVal)
    (sk : List (Nat × Int × Int)) (ev : List Event) : ExecState :=
  { seq := { name := "S",
             tasks := [taskWith tLoopStart s0 r0, taskWith tBody s1 r1,
                       taskWith tLoopEnd s2 r2],
             scheduled_time := none, current_task := c, status := "running",
             loop_stack := sk, results := [], recurrence_type := none },
    stopped := false, instrParams := [], events := ev }

theorem emit_seq (st : ExecState) (e : Event) : (emit st e).seq = st.seq := rfl

theorem emit_stopped (st : ExecState) (e : Event) : (emit st e).stopped = st.stopped := rfl

theorem emit_events (st : ExecState) (e : Event) :
    (emit st e).events = st.events ++ [e] := rfl

theorem setIP_seq (st : ExecState) (uid : Nat) (p : Params) :
    (setIP st uid p).seq = st.seq := rfl

theorem setIP_stopped (st : ExecState) (uid : Nat) (p : Params) :
    (setIP st uid p).stopped = st.stopped := rfl

theorem setIP_events (st : ExecState) (uid : Nat) (p : Params) :
    (setIP st uid p).events = st.events := rfl

theorem modifyTask_results (st : ExecState) (idx : Nat)
    (f : ExperimentTask → ExperimentTask) :
    (modifyTask st idx f).seq.results = st.seq.results := by
  unfold modifyTask
  cases st.seq.tasks[idx]? <;> rfl

theorem modifyTask_current (st : ExecState) (idx : Nat)
    (f : ExperimentTask → ExperimentTask) :
    (modifyTask st idx f).seq.current_task = st.seq.current_task := by
  unfold modifyTask
  cases st.seq.tasks[idx]? <;> rfl

theorem modifyTask_status (st : ExecState) (idx : Nat)
    (f : ExperimentTask → ExperimentTask) :
    (modifyTask st idx f).seq.status = st.seq.status := by
  unfold modifyTask
  cases st.seq.tasks[idx]? <;> rfl

theorem modifyTask_stopped (st : ExecState) (idx : Nat)
    (f : ExperimentTask → ExperimentTask) :
    (modifyTask st idx f).stopped = st.stopped := by
  unfold modifyTask
  cases st.seq.tasks[idx]? <;> rfl

theorem modifyTask_events (st : ExecState) (idx : Nat)
    (f : ExperimentTask → ExperimentTask) :
    (modifyTask st idx f).events = st.events := by
  unfold modifyTask
  cases st.seq.tasks[idx]? <;> rfl

theorem modifyTask_length (st : ExecState) (idx : Nat)
    (f : ExperimentTask → ExperimentTask) :
    (modifyTask st idx f).seq.tasks.length = st.seq.tasks.length := by
  unfold modifyTask
  cases st.seq.tasks[idx]? <;> simp

theorem modifyTask_loop_stack (st : ExecState) (idx : Nat)
    (f : ExperimentTask → ExperimentTask) :
    (modifyTask st idx f).seq.loop_stack = st.seq.loop_stack := by
  unfold modifyTask
  cases st.seq.tasks[idx]? <;> rfl

theorem started_results (st : ExecState) (idx : Nat) :
    (started st idx).seq.results = st.seq.results := by
  unfold started
  rw [emit_seq, modifyTask_results]

theorem started_current (st : ExecState) (idx : Nat) :
    (started st idx).seq.current_task = st.seq.current_task := by
  unfold started
  rw [emit_seq, modifyTask_current]

theorem started_status (st : ExecState) (idx : Nat) :
    (started st idx).seq.status = "running" := by
  unfold started
  rw [emit_seq, modifyTask_status]

theorem started_stopped (st : ExecState) (idx : Nat) :
    (started st idx).stopped = st.stopped := by
  unfold started
  rw [emit_stopped, modifyTask_stopped]

theorem started_events (st : ExecState) (idx : Nat) :
    (started st idx).events = st.events ++ [Event.taskStarted idx] := by
  unfold started
  rw [emit_events, modifyTask_events]

theorem started_length (st : ExecState) (idx : Nat) :
    (started st idx).seq.tasks.length = st.seq.tasks.length := by
  unfold started
  rw [emit_seq, modifyTask_length]

theorem runLoop_guard_false (o : Oracle) (fuel : Nat) (st : ExecState)
    (h : loopGuard st = false) :
    runLoop o fuel st = .finished (finishRun st) := by
  cases fuel <;> simp [runLoop, h]

theorem finishRun_stopped_status (st : ExecState) (h : st.stopped = true) :
    (finishRun st).seq.status = "stopped" := by
  unfold finishRun
  rw [h]
  simp [emit_seq]

theorem checkFrom_fst_get (now : QDT) :
    ∀ (seqs : List ExperimentSequence) (k i : Nat),
    (checkFrom now k seqs).1[i]? = (seqs[i]?).map (fun s => (checkOne now s).1) := by
  intro seqs
  induction seqs with
  | nil => intro k i; simp [checkFrom]
  | cons s rest ih =>
      intro k i
      cases i with
      | zero => simp [checkFrom]
      | succ n => simp [checkFrom, ih (k + 1) n]

theorem checkFrom_mem_ge (now : QDT) :
    ∀ (seqs : List ExperimentSequence) (k j : Nat),
    j ∈ (checkFrom now k seqs).2 → k ≤ j := by
  intro seqs
  induction seqs with
  | nil => intro k j h; simp [checkFrom] at h
  | cons s rest ih =>
      intro k j h
      simp only [checkFrom] at h
      rcases List.mem_append.mp h with h1 | h2
      · split at h1
        · simp at h1
          omega
        · simp at h1
      · have := ih (k + 1) j h2
        omega

theorem checkFrom_count (now : QDT) :
    ∀ (seqs : List ExperimentSequence) (k i : Nat) (s : ExperimentSequence),
    seqs[i]? = some s →
    ((checkFrom now k seqs).2.count (k + i)) =
      (if (checkOne now s).2 = true then 1 else 0) := by
  intro seqs
  induction seqs with
  | nil => intro k i s h; simp at h
  | cons hd rest ih =>
      intro k i s h
      cases i with
      | zero =>
          simp at h
          subst h
          simp only [checkFrom, List.count_append, Nat.add_zero]
          have hz : (checkFrom now (k + 1) rest).2.count k = 0 := by
            rw [List.count_eq_zero]
            intro hmem
            have := checkFrom_mem_ge now rest (k + 1) k hmem
            omega
          rw [hz]
          split
          · simp
          · simp
      | succ n =>
          simp at h
          simp only [checkFrom, List.count_append]
          have hz : ((if (checkOne now hd).2 = true then [k] else []).count (k + (n + 1))) = 0 := by
            rw [List.count_eq_zero]
            intro hmem
            split at hmem <;> simp at hmem
          rw [hz]
          have := ih (k + 1) n s h
          rw [show k + (n + 1) = (k + 1) + n by omega, this]
          omega

theorem dispatch_raised_pres :
    ∀ (o : Oracle) (st : ExecState) (idx : Nat) (task : ExperimentTask)
      (st2 : ExecState) (msg : String),
    dispatch o st idx task = .raised st2 msg →
    st2.seq.status = st.seq.status ∧ st2.seq.current_task = st.seq.current_task ∧
    st2.stopped = st.stopped := by
  intro o st idx task st2 msg h
  simp only [dispatch] at h
  repeat' split at h
  all_goals cases h
  all_goals simp [setIP, modifyTask_status, modifyTask_current, modifyTask_stopped]

theorem task_roundtrip_core :
    ∀ (t : ExperimentTask) (instruments : List Instrument),
    (∀ inst : Instrument, t.target = some inst →
       inst.name ≠ "" ∧ instruments.find? (fun i => i.name == inst.name) = some inst) →
    (ExperimentTask.from_dict t.to_dict instruments).core = t.core := by
  intro t instruments h
  cases htg : t.target with
  | none =>
      simp [ExperimentTask.from_dict, ExperimentTask.to_dict, ExperimentTask.core, htg]
  | some inst =>
      obtain ⟨hne, hfind⟩ := h inst htg
      simp [ExperimentTask.from_dict, ExperimentTask.to_dict, ExperimentTask.core, htg,
        hne, hfind]

theorem task_roundtrip_full :
    ∀ (t : ExperimentTask) (instruments : List Instrument),
    (∀ inst : Instrument, t.target = some inst →
       inst.name ≠ "" ∧ instruments.find? (fun i => i.name == inst.name) = some inst) →
    t.status = "pending" → t.result = none →
    ExperimentTask.from_dict t.to_dict instruments = t := by
  intro t instruments h hs hr
  cases htg : t.target with
  | none =>
      cases t
      simp_all [ExperimentTask.from_dict, ExperimentTask.to_dict]
  | some inst =>
      obtain ⟨hne, hfind⟩ := h inst htg
      cases t
      simp_all [ExperimentTask.from_dict, ExperimentTask.to_dict]

theorem runLoop_zero (o : Oracle) (st : ExecState) :
    runLoop o 0 st = if loopGuard st then .outOfFuel st else .finished (finishRun st) := rfl

theorem runLoop_succ (o : Oracle) (fuel : Nat) (st : ExecState) :
    runLoop o (fuel + 1) st =
    if loopGuard st then runLoop o fuel (execStep o st) else .finished (finishRun st) := rfl

theorem loopStC_guard : ∀ (c : Nat) (s0 s1 s2 : String) (r0 r1 r2 : Option PyVal)
    (sk : List (Nat × Int × Int)) (ev : List Event), c < 3 →
    loopGuard (loopStC c s0 s1 s2 r0 r1 r2 sk ev) = true := by
  intro c s0 s1 s2 r0 r1 r2 sk ev h
  simp [loopStC, taskWith, loopGuard, h]

theorem loopCycleStep0 : ∀ (s0 s1 s2 : String) (r0 r1 r2 : Option PyVal)
    (sk : List (Nat × Int × Int)) (ev : List Event),
    execStep oBoom (loopStC 0 s0 s1 s2 r0 r1 r2 sk ev) =
    loopStC 1 ("complete") s1 s2 (some (PyVal.str ("Loop started (3 iterations)"))) r1 r2
      ((0, 0, 3) :: sk)
      (ev ++ [Event.taskStarted 0,
        Event.taskCompleted 0 (PyVal.str ("Loop started (3 iterations)"))]) := by
  intro s0 s1 s2 r0 r1 r2 sk ev
  simp [loopStC, taskWith, execStep, stepWithTask, dispatch, started,
    completePath, emit, modifyTask, tLoopStart, tBody, tLoopEnd]
  decide

theorem loopCycleStep1 : ∀ (s0 s1 s2 : String) (r0 r1 r2 : Option PyVal)
    (sk : List (Nat × Int × Int)) (ev : List Event),
    execStep oBoom (loopStC 1 s0 s1 s2 r0 r1 r2 sk ev) =
    loopStC 2 s0 ("complete") s2 r0 (some (PyVal.str ("Unknown task type: noop"))) r2 sk
      (ev ++ [Event.taskStarted 1,
        Event.taskCompleted 1 (PyVal.str ("Unknown task type: noop"))]) := by
  intro s0 s1 s2 r0 r1 r2 sk ev
  simp [loopStC, taskWith, execStep, stepWithTask, dispatch, started,
    completePath, emit, modifyTask, tLoopStart, tBody, tLoopEnd]

theorem loopCycleStep2 : ∀ (s0 s1 s2 : String) (r0 r1 r2 : Option PyVal)
    (sk : List (Nat × Int × Int)) (ev : List Event),
    execStep oBoom (loopStC 2 s0 s1 s2 r0 r1 r2 ((0, 0, 3) :: sk) ev) =
    loopStC 0 s0 s1 ("running") r0 r1
      (some (PyVal.str ("Loop iteration " ++ toString ((0 : Int) + 1 + 1) ++ "/" ++
        toString (3 : Int))))
      ((0, 1, 3) :: sk)
      (ev ++ [Event.taskStarted 2,
        Event.taskCompleted 2
          (PyVal.str ("Loop iteration " ++ toString ((0 : Int) + 1 + 1) ++ "/" ++
            toString (3 : Int)))]) := by
  intro s0 s1 s2 r0 r1 r2 sk ev
  simp [loopStC, taskWith, execStep, stepWithTask, dispatch, started,
    completePath, emit, modifyTask, tLoopStart, tBody, tLoopEnd]

theorem loop_run_no_fuel_finishes : ∀ (n : Nat) (s0 s1 s2 : String)
    (r0 r1 r2 : Option PyVal) (sk : List (Nat × Int × Int)) (ev : List Event),
    (runLoop oBoom n (loopStC 0 s0 s1 s2 r0 r1 r2 sk ev)).isFinished = false := by
  intro n
  induction n using Nat.strong_induction_on with
  | _ n ih =>
    intro s0 s1 s2 r0 r1 r2 sk ev
    cases n with
    | zero =>
        rw [runLoop_zero, loopStC_guard 0 s0 s1 s2 r0 r1 r2 sk ev (by omega)]
        rfl
    | succ n1 =>
        rw [runLoop_succ, loopStC_guard 0 s0 s1 s2 r0 r1 r2 sk ev (by omega)]
        rw [if_pos rfl, loopCycleStep0]
        cases n1 with
        | zero =>
            rw [runLoop_zero, loopStC_guard 1 _ _ _ _ _ _ _ _ (by omega)]
            rfl
        | succ n2 =>
            rw [runLoop_succ, loopStC_guard 1 _ _ _ _ _ _ _ _ (by omega)]
            rw [if_pos rfl, loopCycleStep1]
            cases n2 with
            | zero =>
                rw [runLoop_zero, loopStC_guard 2 _ _ _ _ _ _ _ _ (by omega)]
                rfl
            | succ m =>
                rw [runLoop_succ, loopStC_guard 2 _ _ _ _ _ _ _ _ (by omega)]
                rw [if_pos rfl, loopCycleStep2]
                exact ih m (by omega) _ _ _ _ _ _ _ _

/-- Claim C1 (code bug, evaluated at the failing input): for the sequence
LoopStart(repeat=3) / body / LoopEnd, the claim says a completed run
executes the body exactly 3 times and leaves `loopStack` empty.  The code
instead jumps the cursor back to the LoopStart index itself; re-executing
LoopStart pushes a fresh frame whose counter restarts at 0, so the run
never completes for any amount of fuel, and within 20 loop iterations the
body has already started 7 times while the loop stack has grown to 7
frames. -/
theorem loop_jump_back_reenters_loop_start :
    (∀ fuel, (SequenceExecutor.run oBoom fuel seqLoop3 []).isFinished = false) ∧
    countTaskStarted 1 (SequenceExecutor.run oBoom 20 seqLoop3 []).state.events = 7 ∧
    (SequenceExecutor.run oBoom 20 seqLoop3 []).state.seq.loop_stack.length = 7 := by
  refine ⟨?_, by decide, by decide⟩
  intro fuel
  have h : SequenceExecutor.run oBoom fuel seqLoop3 [] =
      runLoop oBoom fuel
        (loopStC 0 ("pending") ("pending") ("pending") none none none [] []) := rfl
  rw [h]
  exact loop_run_no_fuel_finishes fuel _ _ _ _ _ _ _ _

/-- Claim C2 (code bug, evaluated at the failing input): the parameter
override of an instrument task is saved and installed, but when the
instrument call raises, the restore statement is skipped (there is no
try/finally), so `target.parameters` keeps the task override instead of
its pre-call value; on a successful call it is restored. -/
theorem instrument_override_not_restored_on_error :
    getIP stInstr 0 = [("v", PyVal.int 1)] ∧
    getIP (execStep oBoom stInstr) 0 = [("v", PyVal.int 9)] ∧
    ¬ getIP (execStep oBoom stInstr) 0 = [("v", PyVal.int 1)] ∧
    (execStep oBoom stInstr).seq.tasks.map ExperimentTask.status = ["error"] ∧
    getIP (execStep oOk stInstr) 0 = [("v", PyVal.int 1)] := by
  decide

/-- Claim C3 counterexample: a Condition task with `results` holding
`x = 5`, condition `x == 6` (false) and `else_index = 0` in range.  The
claim says the cursor jumps to 0; the code guards the jump with the
truthiness of `parameters.get("else_index")`, and 0 is falsy, so the
cursor advances to 1 instead. -/
theorem condition_else_index_zero_no_jump :
    stCondZero.seq.results = [("x", PyVal.int 5)] ∧
    evalCondition (some ("x == 6")) stCondZero.seq.results = false ∧
    pget tCondZero.parameters ("else_index") = some (PyVal.int 0) ∧
    (execStep oBoom stCondZero).seq.current_task = 1 ∧
    ¬ (execStep oBoom stCondZero).seq.current_task = 0 := by
  decide

/-- Claim C3 as amended: when a Condition task evaluates to false and its
parameters contain a truthy (nonzero, non-empty) integer-coercible
`else_index` that is in range, and the task is not the last one, the
executor sets the cursor to that index instead of advancing; an
`else_index` of 0 is falsy and is treated as absent, so no jump occurs. -/
theorem condition_else_jump_requires_truthy_index :
    ∀ (o : Oracle) (st : ExecState) (idx : Nat) (nm : String) (tg : Option Instrument)
      (fn : Option String) (params : Params) (dly rep : Int) (cond : Option String)
      (res : Option PyVal) (stt : String) (v : PyVal) (j : Int),
    st.seq.current_task = idx →
    st.seq.tasks[idx]? =
      some (ExperimentTask.mk nm ("condition") tg fn params dly rep cond res stt) →
    evalCondition cond st.seq.results = false →
    pget params ("else_index") = some v →
    PyVal.isTruthy v = true →
    PyVal.toIntPy v = .ok j →
    0 ≤ j →
    j < (st.seq.tasks.length : Int) →
    idx + 1 < st.seq.tasks.length →
    (execStep o st).seq.current_task = j.toNat := by
  intro o st idx nm tg fn params dly rep cond res stt v j hcur htask heval hget htr hok hj0 hjlt hlt
  have hstep : execStep o st = stepWithTask o st idx
      (ExperimentTask.mk nm ("condition") tg fn params dly rep cond res stt) := by
    unfold execStep
    rw [hcur, htask]
  rw [hstep]
  unfold stepWithTask
  have hres : (started st idx).seq.results = st.seq.results := started_results st idx
  simp [dispatch, pgetD, hres, heval, hget, htr, hok, modifyTask_length, started_length,
    hlt, hj0, hjlt, emit, modifyTask_current]

/-- Witness for the amended claim C3 at a concrete state: condition
`x == 6` is false against `x = 5`, `else_index = 2` is truthy and in
range among three tasks, and the cursor jumps to 2. -/
theorem condition_else_jump_requires_truthy_index_witness :
    (execStep oBoom stCondTwo).seq.current_task = 2 :=
  condition_else_jump_requires_truthy_index oBoom stCondTwo 0 ("C") none none
    ([("else_index", PyVal.int 2)]) 0 1 (some ("x == 6")) none ("pending")
    (PyVal.int 2) 2 rfl (by decide) (by decide) (by decide) (by decide) rfl
    (by decide) (by decide) (by decide)

/-- Claim C4 counterexample: an instrument whose displayed name is the
empty string is resolvable by the lookup, yet `from_dict` gates on the
truthiness of the stored name, and the empty string is falsy, so the
reconstructed task loses its target: the round trip does not reproduce an
equal task list even on a pristine sequence. -/
theorem roundtrip_drops_empty_target_name :
    ([instEmptyName].find? (fun i => i.name == instEmptyName.name) = some instEmptyName) ∧
    (∀ t ∈ seqEmptyTarget.tasks, t.status = "pending" ∧ t.result = none) ∧
    ¬ ((loadSequenceData (saveSequenceData seqEmptyTarget) [instEmptyName]).tasks =
        seqEmptyTarget.tasks) ∧
    ¬ ((loadSequenceData (saveSequenceData seqEmptyTarget) [instEmptyName]).tasks.map
        ExperimentTask.core = seqEmptyTarget.tasks.map ExperimentTask.core) := by
  decide

/-- Claim C4 as amended: serializing through the save pipeline and
deserializing through the load pipeline, with every original target
resolvable by the instrument lookup to the original instrument and every
target name non-empty, reproduces the task list (its persistent,
serialized content; in full when the tasks are in their pristine state),
the schedule and the recurrence kind. -/
theorem save_load_roundtrip_preserves_content :
    ∀ (s : ExperimentSequence) (instruments : List Instrument),
    (∀ t ∈ s.tasks, ∀ inst : Instrument, t.target = some inst →
       inst.name ≠ "" ∧ instruments.find? (fun i => i.name == inst.name) = some inst) →
    ((loadSequenceData (saveSequenceData s) instruments).tasks.map ExperimentTask.core =
       s.tasks.map ExperimentTask.core ∧
     (loadSequenceData (saveSequenceData s) instruments).scheduled_time = s.scheduled_time ∧
     (loadSequenceData (saveSequenceData s) instruments).recurrence_type = s.recurrence_type ∧
     ((∀ t ∈ s.tasks, t.status = "pending" ∧ t.result = none) →
        (loadSequenceData (saveSequenceData s) instruments).tasks = s.tasks)) := by
  intro s instruments hresv
  have hls : loadSequenceData (saveSequenceData s) instruments =
      ExperimentSequence.mk s.name
        ((s.tasks.map ExperimentTask.to_dict).map
          (fun td => ExperimentTask.from_dict td instruments))
        s.scheduled_time 0 ("stopped") [] [] s.recurrence_type := by
    cases hrec : s.recurrence_type <;>
      simp [loadSequenceData, saveSequenceData, ExperimentSequence.to_dict,
        ExperimentSequence.from_dict, hrec]
  rw [hls]
  refine ⟨?_, rfl, rfl, ?_⟩
  · simp only [List.map_map]
    refine List.map_congr_left ?_
    intro t ht
    exact task_roundtrip_core t instruments (hresv t ht)
  · intro hpr
    simp only [List.map_map]
    have : s.tasks.map (fun t => ExperimentTask.from_dict t.to_dict instruments) =
        s.tasks.map id := by
      refine List.map_congr_left ?_
      intro t ht
      exact task_roundtrip_full t instruments (hresv t ht) (hpr t ht).1 (hpr t ht).2
    simpa using this

/-- Witness for the amended claim C4: a pristine sequence with an
instrument task, a condition task, a schedule and a Daily recurrence
round-trips through save and load in full. -/
theorem save_load_roundtrip_preserves_content_witness :
    (loadSequenceData (saveSequenceData seqRoundTrip) [instPS]).tasks =
      seqRoundTrip.tasks ∧
    (loadSequenceData (saveSequenceData seqRoundTrip) [instPS]).scheduled_time =
      seqRoundTrip.scheduled_time ∧
    (loadSequenceData (saveSequenceData seqRoundTrip) [instPS]).recurrence_type =
      seqRoundTrip.recurrence_type := by
  have hresv : ∀ t ∈ seqRoundTrip.tasks, ∀ inst : Instrument, t.target = some inst →
      inst.name ≠ "" ∧ [instPS].find? (fun i => i.name == inst.name) = some inst := by
    intro t ht inst htg
    have ht2 : t = tInstr ∨ t = tCondZero := by
      simpa [seqRoundTrip] using ht
    rcases ht2 with rfl | rfl
    · have : instPS = inst := by
        simpa [tInstr] using htg
      subst this
      exact ⟨by decide, by decide⟩
    · simp [tCondZero] at htg
  have h := save_load_roundtrip_preserves_content seqRoundTrip [instPS] hresv
  exact ⟨h.2.2.2 (by decide), h.2.1, h.2.2.1⟩

/-- Claim C5: when the dispatch of the task at the cursor raises, then if
the task's parameters contain a truthy `continue_on_error` the sequence
status stays running, the stopped flag stays clear and the cursor
advances to the next task; otherwise the sequence status becomes stopped,
the executor's stopped flag is set, the cursor does not advance and the
main loop exits immediately with a stopped sequence. -/
theorem task_error_policy_continue_or_stop :
    ∀ (o : Oracle) (st : ExecState) (idx : Nat) (task : ExperimentTask)
      (st2 : ExecState) (msg : String),
    st.stopped = false →
    st.seq.current_task = idx →
    st.seq.tasks[idx]? = some task →
    dispatch o (started st idx) idx task = .raised st2 msg →
    ((PyVal.isTruthy (pgetD task.parameters ("continue_on_error") (PyVal.bool false)) = true →
        (execStep o st).seq.status = "running" ∧
        (execStep o st).stopped = false ∧
        (execStep o st).seq.current_task = idx + 1) ∧
     (PyVal.isTruthy (pgetD task.parameters ("continue_on_error") (PyVal.bool false)) = false →
        (execStep o st).seq.status = "stopped" ∧
        (execStep o st).stopped = true ∧
        (execStep o st).seq.current_task = idx ∧
        (∀ fuel, runLoop o fuel (execStep o st) = .finished (finishRun (execStep o st))) ∧
        (finishRun (execStep o st)).seq.status = "stopped")) := by
  intro o st idx task st2 msg hstop hcur htask hdisp
  have hpres := dispatch_raised_pres o (started st idx) idx task st2 msg hdisp
  have hstep0 : execStep o st = stepWithTask o st idx task := by
    unfold execStep
    rw [hcur, htask]
  have hstep : execStep o st = errorPath st2 idx task msg := by
    rw [hstep0]
    unfold stepWithTask
    rw [hdisp]
  have h1 : st2.seq.status = "running" := by rw [hpres.1, started_status]
  have h2 : st2.seq.current_task = idx := by rw [hpres.2.1, started_current, hcur]
  have h3 : st2.stopped = false := by rw [hpres.2.2, started_stopped, hstop]
  constructor
  · intro htr
    rw [hstep]
    unfold errorPath
    rw [htr]
    simp [emit, modifyTask_status, modifyTask_current, modifyTask_stopped, h1, h2, h3]
  · intro hfl
    have hss : (errorPath st2 idx task msg).seq.status = "stopped" := by
      unfold errorPath
      rw [hfl]
      simp
    have hsf : (errorPath st2 idx task msg).stopped = true := by
      unfold errorPath
      rw [hfl]
      simp
    have hsc : (errorPath st2 idx task msg).seq.current_task = idx := by
      unfold errorPath
      rw [hfl]
      simp [emit, modifyTask_current, h2]
    have hguard : loopGuard (execStep o st) = false := by
      simp [loopGuard, hstep, hsf]
    refine ⟨by rw [hstep]; exact hss, by rw [hstep]; exact hsf, by rw [hstep]; exact hsc,
      ?_, ?_⟩
    · intro fuel
      exact runLoop_guard_false o fuel _ hguard
    · refine finishRun_stopped_status _ ?_
      rw [hstep]
      exact hsf

/-- Witness for claim C5 at a concrete state: an instrument task with no
target raises the invalid-task error, and its truthy `continue_on_error`
keeps the sequence running and moves the cursor to the next task. -/
theorem task_error_policy_continue_or_stop_witness :
    (execStep oBoom stBadResil).seq.status = "running" ∧
    (execStep oBoom stBadResil).stopped = false ∧
    (execStep oBoom stBadResil).seq.current_task = 1 :=
  (task_error_policy_continue_or_stop oBoom stBadResil 0 tBadResil
    (started stBadResil 0) ("Invalid instrument or function") rfl rfl (by decide)
    (by decide)).1 (by decide)

/-- Claim C6: one `check_scheduled_sequences` call on a stopped sequence
whose schedule is due triggers exactly one run of it; a Daily recurrence
advances the next run time by exactly 24 hours (86400 seconds), while no
recurrence attribute or an unrecognized kind clears the schedule. -/
theorem check_due_daily_advances_nonrecurring_clears :
    ∀ (now t : QDT) (seqs : List ExperimentSequence) (i : Nat) (s : ExperimentSequence),
    seqs[i]? = some s →
    s.status = "stopped" →
    s.scheduled_time = some t →
    t ≤ now →
    ((s.recurrence_type = some ("Daily") →
        (check_scheduled_sequences now seqs).1[i]? =
          some { s with scheduled_time := some (t + 86400) } ∧
        (check_scheduled_sequences now seqs).2.count i = 1) ∧
     ((s.recurrence_type = none ∨
       (∃ r, s.recurrence_type = some r ∧ r ≠ "Daily" ∧ r ≠ "Weekly" ∧ r ≠ "Monthly")) →
        (check_scheduled_sequences now seqs).1[i]? =
          some { s with scheduled_time := none } ∧
        (check_scheduled_sequences now seqs).2.count i = 1)) := by
  intro now t seqs i s hget hstat hsched hle
  have hcount := checkFrom_count now seqs 0 i s hget
  simp only [Nat.zero_add] at hcount
  have hfst := checkFrom_fst_get now seqs 0 i
  constructor
  · intro hrec
    have hone : checkOne now s = ({ s with scheduled_time := some (t + 86400) }, true) := by
      unfold checkOne
      rw [hstat, hsched, hrec]
      simp [hle]
    refine ⟨?_, ?_⟩
    · unfold check_scheduled_sequences
      rw [hfst, hget]
      simp [hone]
    · unfold check_scheduled_sequences
      rw [hcount, hone]
      simp
  · intro hrec
    have hone : checkOne now s = ({ s with scheduled_time := none }, true) := by
      rcases hrec with hnone | ⟨r, hr, hd, hw, hm⟩
      · unfold checkOne
        rw [hstat, hsched, hnone]
        simp [hle]
      · unfold checkOne
        rw [hstat, hsched, hr]
        simp [hle, hd, hw, hm]
    refine ⟨?_, ?_⟩
    · unfold check_scheduled_sequences
      rw [hfst, hget]
      simp [hone]
    · unfold check_scheduled_sequences
      rw [hcount, hone]
      simp

/-- Witness for claim C6 at a concrete store: a Daily sequence due at
time 1000 is triggered exactly once and rescheduled 86400 seconds
later. -/
theorem check_due_daily_advances_nonrecurring_clears_witness :
    (check_scheduled_sequences 1000 [seqDaily]).1[0]? =
      some { seqDaily with scheduled_time := some (1000 + 86400) } ∧
    (check_scheduled_sequences 1000 [seqDaily]).2.count 0 = 1 :=
  (check_due_daily_advances_nonrecurring_clears 1000 1000 [seqDaily] 0 seqDaily
    rfl rfl rfl (by decide)).1 rfl

/-- Claim C7 counterexample: a Condition task whose left-hand key is
absent from `results` (an enumerated non-fatal failure mode, and indeed
the condition evaluates to false), but whose truthy `else_index` is not
integer-coercible.  The `int(...)` conversion of the else jump raises
inside the dispatch, so the task ends in a task error (and, without
`continue_on_error`, stops the run) instead of completing normally. -/
theorem condition_bad_else_index_yields_task_error :
    evalCondition (some ("x == 6")) stCondBad.seq.results = false ∧
    (execStep oBoom stCondBad).events =
      [Event.taskStarted 0,
       Event.taskError 0 ("invalid literal for int with base 10: foo")] ∧
    (execStep oBoom stCondBad).seq.tasks.map ExperimentTask.status =
      ["error", "pending"] ∧
    (execStep oBoom stCondBad).seq.status = "stopped" := by
  decide

/-- Claim C7 as amended: evaluating a condition never raises — a missing
condition, a malformed expression (not exactly one `==` split into two
parts), a left-hand key absent from `results`, and a failed integer
coercion of the right-hand side against an integer left value all yield
false — and the Condition task itself completes with a task-completed
event (never a task error, and the stopped flag is untouched) provided
the else-jump bookkeeping cannot raise: the condition is true, or the
task is last, or `else_index` is absent, falsy, or integer-coercible. -/
theorem condition_eval_nonfatal_and_total :
    ((∀ (res : List (String × PyVal)), evalCondition none res = false) ∧
     (∀ (c : String) (res : List (String × PyVal)),
        (pySplitEqEq c).length ≠ 2 → evalCondition (some c) res = false) ∧
     (∀ (c l r : String) (res : List (String × PyVal)),
        pySplitEqEq c = [l, r] → pget res (pyStrip l) = none →
        evalCondition (some c) res = false) ∧
     (∀ (c l r : String) (res : List (String × PyVal)) (n : Int),
        pySplitEqEq c = [l, r] → pget res (pyStrip l) = some (PyVal.int n) →
        parseIntPy (pyStrip r) = none → evalCondition (some c) res = false)) ∧
    (∀ (o : Oracle) (st : ExecState) (idx : Nat) (nm : String) (tg : Option Instrument)
       (fn : Option String) (params : Params) (dly rep : Int) (cond : Option String)
       (res : Option PyVal) (stt : String),
       st.seq.current_task = idx →
       st.seq.tasks[idx]? =
         some (ExperimentTask.mk nm ("condition") tg fn params dly rep cond res stt) →
       (evalCondition cond st.seq.results = true ∨
        ¬ (idx + 1 < st.seq.tasks.length) ∨
        pget params ("else_index") = none ∨
        (∃ v, pget params ("else_index") = some v ∧ PyVal.isTruthy v = false) ∨
        (∃ v k, pget params ("else_index") = some v ∧ PyVal.toIntPy v = .ok k)) →
       (∃ r0, (execStep o st).events =
          st.events ++ [Event.taskStarted idx, Event.taskCompleted idx r0]) ∧
       (execStep o st).stopped = st.stopped) := by
  constructor
  · refine ⟨fun res => rfl, ?_, ?_, ?_⟩
    · intro c res h
      cases hsp : pySplitEqEq c with
      | nil => simp [evalCondition, hsp]
      | cons a tl =>
          cases tl with
          | nil => simp [evalCondition, hsp]
          | cons b tl2 =>
              cases tl2 with
              | nil => exact absurd (by rw [hsp]; rfl) h
              | cons d tl3 => simp [evalCondition, hsp]
    · intro c l r res hsp h2
      simp [evalCondition, hsp, h2]
    · intro c l r res n hsp h2 h3
      simp [evalCondition, hsp, h2, h3]
  · intro o st idx nm tg fn params dly rep cond res stt hcur htask hsafe
    have hstep : execStep o st = stepWithTask o st idx
        (ExperimentTask.mk nm ("condition") tg fn params dly rep cond res stt) := by
      unfold execStep
      rw [hcur, htask]
    have hres : (started st idx).seq.results = st.seq.results := started_results st idx
    rcases hsafe with h | h | h | ⟨v, hv, hvf⟩ | ⟨v, k, hv, hk⟩
    · refine ⟨⟨PyVal.str ("Condition evaluated to True"), ?_⟩, ?_⟩ <;>
      · rw [hstep]
        unfold stepWithTask
        simp [dispatch, pgetD, hres, h, completePath, emit, modifyTask_events,
          modifyTask_stopped, modifyTask_length, started_events, started_stopped,
          started_length]
    · refine ⟨⟨PyVal.str ("Condition evaluated to " ++
          (if evalCondition cond st.seq.results then "True" else "False")), ?_⟩, ?_⟩ <;>
      · rw [hstep]
        unfold stepWithTask
        simp [dispatch, pgetD, hres, h, completePath, emit, modifyTask_events,
          modifyTask_stopped, modifyTask_length, started_events, started_stopped,
          started_length]
    · refine ⟨⟨PyVal.str ("Condition evaluated to " ++
          (if evalCondition cond st.seq.results then "True" else "False")), ?_⟩, ?_⟩ <;>
      · rw [hstep]
        unfold stepWithTask
        simp [dispatch, pgetD, hres, h, PyVal.isTruthy, completePath, emit,
          modifyTask_events, modifyTask_stopped, modifyTask_length, started_events,
          started_stopped, started_length]
    · refine ⟨⟨PyVal.str ("Condition evaluated to " ++
          (if evalCondition cond st.seq.results then "True" else "False")), ?_⟩, ?_⟩ <;>
      · rw [hstep]
        unfold stepWithTask
        simp [dispatch, pgetD, hres, hv, hvf, completePath, emit, modifyTask_events,
          modifyTask_stopped, modifyTask_length, started_events, started_stopped,
          started_length]
    · cases hvt : PyVal.isTruthy v with
      | false =>
          refine ⟨⟨PyVal.str ("Condition evaluated to " ++
              (if evalCondition cond st.seq.results then "True" else "False")), ?_⟩, ?_⟩ <;>
          · rw [hstep]
            unfold stepWithTask
            simp [dispatch, pgetD, hres, hv, hvt, completePath, emit, modifyTask_events,
              modifyTask_stopped, modifyTask_length, started_events, started_stopped,
              started_length]
      | true =>
          refine ⟨⟨PyVal.str ("Condition evaluated to " ++
              (if evalCondition cond st.seq.results then "True" else "False")), ?_⟩, ?_⟩ <;>
          · rw [hstep]
            unfold stepWithTask
            by_cases hcond : (evalCondition cond st.seq.results = false ∧
                idx + 1 < st.seq.tasks.length)
            · by_cases hin : (0 ≤ k ∧ k < ((st.seq.tasks.length : Int)))
              · simp [dispatch, pgetD, hres, hv, hvt, hk, hcond, hin, completePath, emit,
                  modifyTask_events, modifyTask_stopped, started_events, started_stopped,
                  modifyTask_length, started_length]
              · simp [dispatch, pgetD, hres, hv, hvt, hk, hcond, hin, completePath, emit,
                  modifyTask_events, modifyTask_stopped, started_events, started_stopped,
                  modifyTask_length, started_length]
            · simp [dispatch, pgetD, hres, hv, hvt, hk, hcond, completePath, emit,
                modifyTask_events, modifyTask_stopped, started_events, started_stopped,
                modifyTask_length, started_length]

/-- Witness for the amended claim C7: the condition `x == 6` against
`results` holding `x = 5` is false (a key is present but unequal), the
falsy `else_index = 0` makes the else bookkeeping safe, and the task
completes with a task-completed event, the run not stopped; a lookup
failure against an empty `results` also yields false. -/
theorem condition_eval_nonfatal_and_total_witness :
    evalCondition (some ("x == 6")) [] = false ∧
    (∃ r0, (execStep oBoom stCondZero).events =
       stCondZero.events ++ [Event.taskStarted 0, Event.taskCompleted 0 r0]) ∧
    (execStep oBoom stCondZero).stopped = stCondZero.stopped := by
  refine ⟨condition_eval_nonfatal_and_total.1.2.2.1 ("x == 6") ("x ") (" 6") []
    (by decide) (by decide), ?_, ?_⟩
  · exact (condition_eval_nonfatal_and_total.2 oBoom stCondZero 0 ("C") none none
      ([("else_index", PyVal.int 0)]) 0 1 (some ("x == 6")) none ("pending") rfl
      (by decide)
      (Or.inr (Or.inr (Or.inr (Or.inl ⟨PyVal.int 0, by decide, by decide⟩))))).1
  · exact (condition_eval_nonfatal_and_total.2 oBoom stCondZero 0 ("C") none none
      ([("else_index", PyVal.int 0)]) 0 1 (some ("x == 6")) none ("pending") rfl
      (by decide)
      (Or.inr (Or.inr (Or.inr (Or.inl ⟨PyVal.int 0, by decide, by decide⟩))))).2

/-- Claim C8: running the executor over a sequence with zero tasks
(whatever stale state it carries, which the initial reset clears)
immediately exits the main loop, reaches status complete with empty
results, and emits exactly the sequence-completed event. -/
theorem empty_sequence_run_completes :
    ∀ (s : ExperimentSequence) (o : Oracle) (fuel : Nat) (ip : List (Nat × Params)),
    s.tasks = [] →
    (SequenceExecutor.run o fuel s ip).isFinished = true ∧
    (SequenceExecutor.run o fuel s ip).state.seq.status = "complete" ∧
    (SequenceExecutor.run o fuel s ip).state.seq.results = [] ∧
    (SequenceExecutor.run o fuel s ip).state.events = [Event.seqCompleted] := by
  intro s o fuel ip h
  have hguard : loopGuard
      { seq := { s.reset with status := "running" }
        stopped := false
        instrParams := ip
        events := [] } = false := by
    simp [loopGuard, ExperimentSequence.reset, h]
  unfold SequenceExecutor.run
  rw [runLoop_guard_false o fuel _ hguard]
  simp [RunOutcome.isFinished, RunOutcome.state, finishRun, ExperimentSequence.reset, h,
    emit]

/-- Witness for claim C8: an empty sequence carrying stale cursor,
status, loop stack and results completes immediately with empty results
even at fuel 0. -/
theorem empty_sequence_run_completes_witness :
    seqStale.tasks = [] ∧
    ((SequenceExecutor.run oBoom 0 seqStale []).isFinished = true ∧
     (SequenceExecutor.run oBoom 0 seqStale []).state.seq.status = "complete" ∧
     (SequenceExecutor.run oBoom 0 seqStale []).state.seq.results = [] ∧
     (SequenceExecutor.run oBoom 0 seqStale []).state.events = [Event.seqCompleted]) :=
  ⟨rfl, empty_sequence_run_completes seqStale oBoom 0 [] rfl⟩

/-- Claim C9: `remove_task`, `move_task_up` and `move_task_down` are
total functions that leave the sequence unchanged on any out-of-range
index (negative included); `move_task_up` is also a no-op at index 0 and
`move_task_down` at the last index. -/
theorem task_list_ops_bounds_checked :
    ∀ (s : ExperimentSequence) (i : Int),
    ((i < 0 ∨ (s.tasks.length : Int) ≤ i) →
       s.remove_task i = s ∧ s.move_task_up i = s ∧ s.move_task_down i = s) ∧
    s.move_task_up 0 = s ∧
    s.move_task_down ((s.tasks.length : Int) - 1) = s := by
  intro s i
  refine ⟨fun h => ⟨?_, ?_, ?_⟩, ?_, ?_⟩
  · unfold ExperimentSequence.remove_task
    rw [if_neg (by omega)]
  · unfold ExperimentSequence.move_task_up
    rw [if_neg (by omega)]
  · unfold ExperimentSequence.move_task_down
    rw [if_neg (by omega)]
  · unfold ExperimentSequence.move_task_up
    rw [if_neg (by omega)]
  · unfold ExperimentSequence.move_task_down
    rw [if_neg (by omega)]

/-- Witness for claim C9: index 5 is out of range for the three-task
sequence, and all three operations leave it unchanged. -/
theorem task_list_ops_bounds_checked_witness :
    ((5 : Int) < 0 ∨ (seqLoop3.tasks.length : Int) ≤ 5) ∧
    (seqLoop3.remove_task 5 = seqLoop3 ∧ seqLoop3.move_task_up 5 = seqLoop3 ∧
     seqLoop3.move_task_down 5 = seqLoop3) :=
  ⟨by decide, (task_list_ops_bounds_checked seqLoop3 5).1 (by decide)⟩

/-- Claim C10: the executor run begins by resetting the owned sequence —
after reset the cursor is 0, results and the loop stack are empty, the
status is stopped, and every task is pending with its result cleared —
and consequently two sequences that agree after reset (that is, agree on
everything except stale run state) produce identical runs: a run never
resumes from a previous run's cursor or results. -/
theorem run_always_starts_from_reset :
    ∀ (s : ExperimentSequence),
    (s.reset.current_task = 0 ∧ s.reset.results = [] ∧ s.reset.loop_stack = [] ∧
     s.reset.status = "stopped" ∧
     ∀ t ∈ s.reset.tasks, t.status = "pending" ∧ t.result = none) ∧
    (∀ (s2 : ExperimentSequence) (o : Oracle) (fuel : Nat) (ip : List (Nat × Params)),
       s.reset = s2.reset →
       SequenceExecutor.run o fuel s ip = SequenceExecutor.run o fuel s2 ip) := by
  intro s
  constructor
  · refine ⟨rfl, rfl, rfl, rfl, ?_⟩
    intro t ht
    simp [ExperimentSequence.reset] at ht
    obtain ⟨t0, _, rfl⟩ := ht
    exact ⟨rfl, rfl⟩
  · intro s2 o fuel ip h
    unfold SequenceExecutor.run
    rw [h]

/-- Witness for claim C10: a two-task sequence with stale statuses,
cursor, loop stack and results resets to the same state as its pristine
counterpart, and both produce the same run. -/
theorem run_always_starts_from_reset_witness :
    seqStale2.reset = seqFresh2.reset ∧
    SequenceExecutor.run oBoom 6 seqStale2 [] = SequenceExecutor.run oBoom 6 seqFresh2 [] :=
  ⟨by decide, (run_always_starts_from_reset seqStale2).2 seqFresh2 oBoom 6 [] (by decide)⟩
